import Mathlib

/-
Shallow embedding of the game-mode stack manager from
src/src/engine/mode_manager.cpp (GameMode and ModeEngine).

Conventions used throughout:
- A C++ std vector is modelled as a List whose HEAD is the vector BACK.
  Under this convention vector push_back is list cons, vector pop_back is
  list tail, vector back is list head, and the element at vector index i
  (0 = front) is the list element at position (length - 1 - i).
- The live game stack therefore keeps the TOP of the stack at the list
  head, and the pending push stack keeps the most recently enqueued mode
  at the list head (enqueue order read from the last element backwards).
- Machine integers (the uint32 pop counter, the uint8 mode tag) are
  modelled as Nat: the counter moves only by single increments and by
  decrements guarded to be above zero, so no wrap-around can occur.
- External collaborators are modelled as explicit inputs and outputs: the
  video subsystem is a record of the two queried flags passed to each
  Update call, and the calls made to the video, system-timer and logging
  facilities are recorded in an event list.
- vector at throws std out_of_range on a bad index; that outcome is the
  Lookup.thrown result. Calling back() on an empty vector is undefined
  behavior; an Update run that reaches it yields state = none.
-/

/-- A game mode: an object identity plus the mode_type tag set at
construction (class GameMode in mode_manager.cpp). The id field
distinguishes distinct mode objects (distinct C++ pointers). -/
structure GameMode where
  id : Nat
  mode_type : Nat
deriving DecidableEq

/-- Sentinel tag meaning "no mode". It is declared in mode_manager.h
(header not under src); its concrete value is immaterial to every claim,
fixed here as 0. -/
def MODE_MANAGER_DUMMY_MODE : Nat := 0

/-- Result of a stack lookup: either the value, or the std out_of_range
exception raised by std vector at. -/
inductive Lookup (A : Type) where
  | thrown : Lookup A
  | found : A → Lookup A
deriving DecidableEq

/-- Map a function over a successful lookup. -/
def Lookup.map (f : A → B) : Lookup A → Lookup B
  | .thrown => .thrown
  | .found a => .found (f a)

/-- std vector at with vector index i (0 = front), over the head-is-back
list encoding: defined exactly when i < length, returning the list element
at position (length - 1 - i); otherwise the out_of_range exception. -/
def vecAt (l : List GameMode) (i : Nat) : Lookup GameMode :=
  if h : i < l.length then .found (l.get ⟨l.length - 1 - i, by omega⟩)
  else .thrown

/-- The two flags of the video subsystem that ModeEngine.Update queries
(VideoManager IsLastFadeTransitional and IsFading). -/
structure VideoState where
  isLastFadeTransitional : Bool
  isFading : Bool
deriving DecidableEq

/-- Observable calls made by ModeEngine.Update to its collaborators:
the two PRINT_WARNING sites, SystemManager ExitGame, GameMode Reset,
the transitional fade-in on VideoManager, the two system-timer calls,
and the per-frame GameMode Update dispatch. -/
inductive Event where
  | warnExcessPops : Event
  | exitRequested : Event
  | resetCalled : Nat → Event
  | fadeInStarted : Bool → Event
  | examineTimers : Event
  | initUpdateTimer : Event
  | updateCalled : Nat → Event
deriving DecidableEq

/-- The state of ModeEngine: the live game stack, the pending push stack,
the pending pop counter, and the four transition flags, exactly the data
members mutated by the functions in mode_manager.cpp. -/
structure ModeEngine where
  game_stack : List GameMode
  push_stack : List GameMode
  pop_count : Nat
  state_change : Bool
  fade_out : Bool
  fade_out_finished : Bool
  fade_in : Bool
deriving DecidableEq

/-- The state built by the ModeEngine constructor (empty stacks, counter
zero, all transition flags cleared), generalized over the initial stack
contents for stating claims about arbitrary quiescent states. -/
def quiescent (stack : List GameMode) : ModeEngine :=
  { game_stack := stack, push_stack := [], pop_count := 0,
    state_change := false, fade_out := false, fade_out_finished := false,
    fade_in := false }

/-- ModeEngine.Pop: record the fade-in wish, bump the pop counter, flag a
state change, and set the fade-out flags from the fade_out argument
(lines 133-149 of mode_manager.cpp). -/
def ModeEngine.Pop (s : ModeEngine) (fade_out fade_in : Bool) : ModeEngine :=
  let s2 := { s with fade_in := fade_in, pop_count := s.pop_count + 1,
                     state_change := true }
  if fade_out then { s2 with fade_out := true, fade_out_finished := false }
  else { s2 with fade_out := false, fade_out_finished := true }

/-- ModeEngine.PopAll: set the pop counter to the current live stack
depth. Note that it touches nothing else (line 153-155). -/
def ModeEngine.PopAll (s : ModeEngine) : ModeEngine :=
  { s with pop_count := s.game_stack.length }

/-- ModeEngine.Push: append the mode to the pending push stack (vector
push_back, i.e. cons under the head-is-back encoding), flag a state
change, record the fade-in wish, and set the fade-out flags from the
fade_out argument (lines 159-175). -/
def ModeEngine.Push (s : ModeEngine) (gm : GameMode) (fade_out fade_in : Bool) :
    ModeEngine :=
  let s2 := { s with push_stack := gm :: s.push_stack, state_change := true,
                     fade_in := fade_in }
  if fade_out then { s2 with fade_out := true, fade_out_finished := false }
  else { s2 with fade_out := false, fade_out_finished := true }

/-- ModeEngine.GetGameType (no argument overload): dummy tag on an empty
stack, else the tag of the back element (lines 179-184). -/
def ModeEngine.GetGameTypeTop (s : ModeEngine) : Nat :=
  match s.game_stack with
  | [] => MODE_MANAGER_DUMMY_MODE
  | top :: _ => top.mode_type

/-- ModeEngine.GetGameType(index): dummy tag when size < index, else the
tag of the element at vector index (size - index) via vector at
(lines 188-193). -/
def ModeEngine.GetGameType (s : ModeEngine) (index : Nat) : Lookup Nat :=
  if s.game_stack.length < index then .found MODE_MANAGER_DUMMY_MODE
  else (vecAt s.game_stack (s.game_stack.length - index)).map GameMode.mode_type

/-- ModeEngine.GetTop: null on an empty stack, else the back element
(lines 197-202). -/
def ModeEngine.GetTop (s : ModeEngine) : Option GameMode :=
  match s.game_stack with
  | [] => none
  | top :: _ => some top

/-- ModeEngine.Get(index): null when size < index, else the element at
vector index (size - index) via vector at (lines 206-211). -/
def ModeEngine.Get (s : ModeEngine) (index : Nat) : Lookup (Option GameMode) :=
  if s.game_stack.length < index then .found none
  else (vecAt s.game_stack (s.game_stack.length - index)).map some

/-- Step 1 of ModeEngine.Update (lines 217-220): if a fade-out is in
progress and the video subsystem reports the transitional fade done,
flip the fade-out flags. -/
def fadeStep (s : ModeEngine) (video : VideoState) : ModeEngine :=
  if s.fade_out && video.isLastFadeTransitional && !video.isFading then
    { s with fade_out := false, fade_out_finished := true }
  else s

/-- The pop loop of ModeEngine.Update (lines 225-234): while the counter
is nonzero, pop and destroy the back of the live stack; on an empty stack
emit the excess-pops warning, zero the counter and break. Returns the
final counter, the remaining stack and the emitted events. -/
def popPhase : Nat → List GameMode → Nat × List GameMode × List Event
  | 0, stack => (0, stack, [])
  | _ + 1, [] => (0, [], [Event.warnExcessPops])
  | n + 1, _ :: rest => popPhase n rest

/-- The push-drain loop of ModeEngine.Update (lines 237-240): while the
pending push stack is nonempty, push its back onto the live stack and pop
it. Under the head-is-back encoding each step conses the head of the
pending stack onto the live stack. -/
def drainPush : List GameMode → List GameMode → List GameMode
  | [], game => game
  | m :: rest, game => drainPush rest (m :: game)

/-- Result of one ModeEngine.Update call: the next engine state, or none
when the call runs into undefined behavior (back() on the empty live
stack at line 249), together with the emitted collaborator events. -/
structure UpdateResult where
  state : Option ModeEngine
  events : List Event
deriving DecidableEq

/-- ModeEngine.Update (lines 215-270): run the fade-out completion check,
then when the fade-out is finished and a state change is pending, run the
pop loop, the push-drain loop, the empty-stack check (warn + ExitGame,
with NO early return: the subsequent back()->Reset() on an empty stack is
undefined behavior, modelled as state none), the Reset of the new top,
the flag resets, the fade-in and the timer calls; finally dispatch Update
to the top of the live stack when it is nonempty. -/
def ModeEngine.Update (s : ModeEngine) (video : VideoState) : UpdateResult :=
  if (fadeStep s video).fade_out_finished && (fadeStep s video).state_change then
    match drainPush (fadeStep s video).push_stack
        (popPhase (fadeStep s video).pop_count (fadeStep s video).game_stack).2.1 with
    | [] =>
        { state := none,
          events :=
            (popPhase (fadeStep s video).pop_count (fadeStep s video).game_stack).2.2
              ++ [Event.exitRequested] }
    | top :: rest =>
        { state := some { fadeStep s video with
                          push_stack := [],
                          pop_count :=
                            (popPhase (fadeStep s video).pop_count
                              (fadeStep s video).game_stack).1,
                          state_change := false, fade_out_finished := false,
                          game_stack := top :: rest },
          events :=
            (popPhase (fadeStep s video).pop_count (fadeStep s video).game_stack).2.2
              ++ [Event.resetCalled top.id,
                  Event.fadeInStarted (fadeStep s video).fade_in,
                  Event.examineTimers, Event.initUpdateTimer,
                  Event.updateCalled top.id] }
  else
    match (fadeStep s video).game_stack with
    | [] => { state := some (fadeStep s video), events := [] }
    | top :: _ =>
        { state := some (fadeStep s video),
          events := [Event.updateCalled top.id] }

/-- Run a sequence of Update calls, one video report per frame, stopping
with none as soon as one call runs into undefined behavior. -/
def runUpdates (s : ModeEngine) : List VideoState → Option ModeEngine
  | [] => some s
  | v :: rest =>
    match (s.Update v).state with
    | none => none
    | some s2 => runUpdates s2 rest

/-- A Push or Pop request issued within one frame. -/
inductive Call where
  | pushCall : GameMode → Bool → Bool → Call
  | popCall : Bool → Bool → Call
deriving DecidableEq

/-- Apply one Push or Pop request to the engine state. -/
def applyCall (s : ModeEngine) : Call → ModeEngine
  | .pushCall m fo fi => s.Push m fo fi
  | .popCall fo fi => s.Pop fo fi

/-- Apply a same-frame batch of Push and Pop requests in call order. -/
def applyCalls (s : ModeEngine) (cs : List Call) : ModeEngine :=
  cs.foldl applyCall s

/-- The fade-out argument of a request. -/
def Call.fadeOutFlag : Call → Bool
  | .pushCall _ fo _ => fo
  | .popCall fo _ => fo

/-- The fade-in argument of a request. -/
def Call.fadeInFlag : Call → Bool
  | .pushCall _ _ fi => fi
  | .popCall _ fi => fi

/-- Whether an event is a GameMode Reset call. -/
def isResetEvent : Event → Bool
  | .resetCalled _ => true
  | _ => false

/-- Number of GameMode Reset calls in an event list. -/
def resetCount (evs : List Event) : Nat :=
  (evs.filter isResetEvent).length

/-- The map from a GetTop or Get result to the corresponding GetGameType
result value: the dummy tag for null, otherwise the mode tag. -/
def tagOrDummy : Option GameMode → Nat
  | none => MODE_MANAGER_DUMMY_MODE
  | some m => m.mode_type

/-- Sample mode A for concrete scenarios. -/
def mA : GameMode := { id := 1, mode_type := 11 }

/-- Sample mode B for concrete scenarios. -/
def mB : GameMode := { id := 2, mode_type := 12 }

/-- Sample mode X for concrete scenarios. -/
def mX : GameMode := { id := 3, mode_type := 13 }

/-- Sample mode Y for concrete scenarios. -/
def mY : GameMode := { id := 4, mode_type := 14 }

/-- Video report: no transitional fade in flight. -/
def vNone : VideoState := { isLastFadeTransitional := false, isFading := false }

/-- Video report: the transitional fade has completed. -/
def vDone : VideoState := { isLastFadeTransitional := true, isFading := false }

/-- Video report: the transitional fade is still running. -/
def vFading : VideoState := { isLastFadeTransitional := true, isFading := true }

@[simp]
theorem fadeStep_game_stack (s : ModeEngine) (v : VideoState) :
    (fadeStep s v).game_stack = s.game_stack := by
  unfold fadeStep; split <;> rfl

@[simp]
theorem fadeStep_push_stack (s : ModeEngine) (v : VideoState) :
    (fadeStep s v).push_stack = s.push_stack := by
  unfold fadeStep; split <;> rfl

@[simp]
theorem fadeStep_pop_count (s : ModeEngine) (v : VideoState) :
    (fadeStep s v).pop_count = s.pop_count := by
  unfold fadeStep; split <;> rfl

@[simp]
theorem fadeStep_state_change (s : ModeEngine) (v : VideoState) :
    (fadeStep s v).state_change = s.state_change := by
  unfold fadeStep; split <;> rfl

@[simp]
theorem fadeStep_fade_in (s : ModeEngine) (v : VideoState) :
    (fadeStep s v).fade_in = s.fade_in := by
  unfold fadeStep; split <;> rfl

theorem fadeStep_fof_of_fof (s : ModeEngine) (v : VideoState)
    (h : s.fade_out_finished = true) : (fadeStep s v).fade_out_finished = true := by
  unfold fadeStep; split <;> simp [h]

theorem fadeStep_of_fading (s : ModeEngine) (v : VideoState)
    (hv : v.isFading = true) : fadeStep s v = s := by
  unfold fadeStep
  simp [hv]

theorem drainPush_eq (p g : List GameMode) : drainPush p g = p.reverse ++ g := by
  induction p generalizing g with
  | nil => simp [drainPush]
  | cons m rest ih => simp [drainPush, ih]

theorem popPhase_count (n : Nat) (l : List GameMode) : (popPhase n l).1 = 0 := by
  induction n generalizing l with
  | zero => rfl
  | succ n ih =>
      cases l with
      | nil => rfl
      | cons a t => exact ih t

theorem popPhase_stack (n : Nat) (l : List GameMode) :
    (popPhase n l).2.1 = l.drop n := by
  induction n generalizing l with
  | zero => rfl
  | succ n ih =>
      cases l with
      | nil => rfl
      | cons a t => simpa [popPhase] using ih t

theorem popPhase_events (n : Nat) (l : List GameMode) :
    (popPhase n l).2.2 = if l.length < n then [Event.warnExcessPops] else [] := by
  induction n generalizing l with
  | zero => rfl
  | succ n ih =>
      cases l with
      | nil => simp [popPhase]
      | cons a t =>
          rw [show popPhase (n + 1) (a :: t) = popPhase n t from rfl, ih]
          simp only [List.length_cons]
          by_cases h : t.length < n <;> simp [h, Nat.add_lt_add_iff_right]

theorem update_no_commit (s : ModeEngine) (v : VideoState)
    (hg : ((fadeStep s v).fade_out_finished && s.state_change) = false) :
    (s.Update v).state = some (fadeStep s v) ∧
      ∀ e ∈ (s.Update v).events, ∃ i, e = Event.updateCalled i := by
  have hg2 : ¬(((fadeStep s v).fade_out_finished && (fadeStep s v).state_change) = true) := by
    rw [fadeStep_state_change]; simp [hg]
  unfold ModeEngine.Update
  rw [if_neg hg2]
  cases hcase : (fadeStep s v).game_stack with
  | nil => exact ⟨rfl, by simp⟩
  | cons top rest => exact ⟨rfl, by simp⟩

theorem update_stable_fading (s : ModeEngine) (v : VideoState)
    (hf : s.fade_out_finished = false) (hv : v.isFading = true) :
    (s.Update v).state = some s := by
  have h1 := fadeStep_of_fading s v hv
  have := update_no_commit s v (by rw [h1, hf]; simp)
  rw [h1] at this
  exact this.1

theorem runUpdates_fading (s : ModeEngine) (vs : List VideoState)
    (hf : s.fade_out_finished = false) (h : ∀ v ∈ vs, v.isFading = true) :
    runUpdates s vs = some s := by
  induction vs with
  | nil => rfl
  | cons v rest ih =>
      unfold runUpdates
      rw [update_stable_fading s v hf (h v (by simp))]
      exact ih (fun w hw => h w (by simp [hw]))

theorem update_commit_empty (s : ModeEngine) (v : VideoState)
    (h1 : (fadeStep s v).fade_out_finished = true) (h2 : s.state_change = true)
    (he : s.push_stack.reverse ++ s.game_stack.drop s.pop_count = []) :
    (s.Update v).state = none ∧
      (s.Update v).events =
        (popPhase s.pop_count s.game_stack).2.2 ++ [Event.exitRequested] := by
  have hg : ((fadeStep s v).fade_out_finished && (fadeStep s v).state_change) = true := by
    rw [h1, fadeStep_state_change, h2]; rfl
  unfold ModeEngine.Update
  rw [if_pos hg]
  simp only [fadeStep_game_stack, fadeStep_push_stack, fadeStep_pop_count]
  rw [drainPush_eq, popPhase_stack, he]
  exact ⟨rfl, rfl⟩

theorem update_commit_cons (s : ModeEngine) (v : VideoState) (top : GameMode)
    (rest : List GameMode)
    (h1 : (fadeStep s v).fade_out_finished = true) (h2 : s.state_change = true)
    (he : s.push_stack.reverse ++ s.game_stack.drop s.pop_count = top :: rest) :
    (s.Update v).state =
        some { fadeStep s v with
               push_stack := [], pop_count := 0,
               state_change := false, fade_out_finished := false,
               game_stack := top :: rest } ∧
      (s.Update v).events =
        (popPhase s.pop_count s.game_stack).2.2 ++
          [Event.resetCalled top.id, Event.fadeInStarted s.fade_in,
           Event.examineTimers, Event.initUpdateTimer,
           Event.updateCalled top.id] := by
  have hg : ((fadeStep s v).fade_out_finished && (fadeStep s v).state_change) = true := by
    rw [h1, fadeStep_state_change, h2]; rfl
  unfold ModeEngine.Update
  rw [if_pos hg]
  simp only [fadeStep_game_stack, fadeStep_push_stack, fadeStep_pop_count,
    fadeStep_fade_in]
  rw [drainPush_eq, popPhase_stack, he, popPhase_count]
  exact ⟨rfl, rfl⟩

theorem get_irrel (l : List GameMode) (i j : Nat) (hi : i < l.length)
    (hj : j < l.length) (hij : i = j) : l.get ⟨i, hi⟩ = l.get ⟨j, hj⟩ := by
  subst hij; rfl

/-- Claim C4, counterexample: on the one-element stack, Get(0) and
GetGameType(0) raise out_of_range (vector at with argument size), so
neither returns null nor the dummy tag, refuting that the lookups never
throw and return null for every out-of-range index. -/
theorem get_index_zero_throws_ce :
    (quiescent [mA]).Get 0 = Lookup.thrown ∧
      (quiescent [mA]).GetGameType 0 = Lookup.thrown := by decide

/-- Claim C4, amended: for every index at least 1, Get(index) and
GetGameType(index) never throw; they return null and the dummy tag when
the stack depth is below index, and otherwise the mode (and its tag) at
vector position depth - index; for index 0, which the guard size < index
admits, both always raise out_of_range via vector at. -/
theorem get_bounds (s : ModeEngine) (index : Nat) (h : 1 ≤ index) :
    (s.game_stack.length < index →
        s.Get index = Lookup.found none ∧
        s.GetGameType index = Lookup.found MODE_MANAGER_DUMMY_MODE)
    ∧ (index ≤ s.game_stack.length →
        ∃ m, s.game_stack[index - 1]? = some m ∧
          s.Get index = Lookup.found (some m) ∧
          s.GetGameType index = Lookup.found m.mode_type)
    ∧ s.Get 0 = Lookup.thrown
    ∧ s.GetGameType 0 = Lookup.thrown := by
  have hzero : ¬(s.game_stack.length < 0) := by omega
  refine ⟨?_, ?_, ?_, ?_⟩
  · intro hlt
    unfold ModeEngine.Get ModeEngine.GetGameType
    rw [if_pos hlt, if_pos hlt]
    exact ⟨rfl, rfl⟩
  · intro hle
    have hnlt : ¬(s.game_stack.length < index) := by omega
    have hi : s.game_stack.length - index < s.game_stack.length := by omega
    have hj : index - 1 < s.game_stack.length := by omega
    refine ⟨s.game_stack.get ⟨index - 1, hj⟩, ?_, ?_, ?_⟩
    · rw [List.getElem?_eq_getElem hj]
      simp [List.get_eq_getElem]
    · unfold ModeEngine.Get vecAt
      rw [if_neg hnlt, dif_pos hi]
      unfold Lookup.map
      rw [get_irrel s.game_stack _ _ _ hj (by omega)]
    · unfold ModeEngine.GetGameType vecAt
      rw [if_neg hnlt, dif_pos hi]
      unfold Lookup.map
      rw [get_irrel s.game_stack _ _ _ hj (by omega)]
  · unfold ModeEngine.Get vecAt
    rw [if_neg hzero]
    have : ¬(s.game_stack.length - 0 < s.game_stack.length) := by omega
    rw [dif_neg this]
    rfl
  · unfold ModeEngine.GetGameType vecAt
    rw [if_neg hzero]
    have : ¬(s.game_stack.length - 0 < s.game_stack.length) := by omega
    rw [dif_neg this]
    rfl

/-- Witness for get_bounds at index 1 on a two-element stack. -/
theorem get_bounds_witness :
    1 ≤ 1 ∧
      (((quiescent [mA, mB]).game_stack.length < 1 →
          (quiescent [mA, mB]).Get 1 = Lookup.found none ∧
          (quiescent [mA, mB]).GetGameType 1 =
            Lookup.found MODE_MANAGER_DUMMY_MODE)
        ∧ (1 ≤ (quiescent [mA, mB]).game_stack.length →
            ∃ m, (quiescent [mA, mB]).game_stack[1 - 1]? = some m ∧
              (quiescent [mA, mB]).Get 1 = Lookup.found (some m) ∧
              (quiescent [mA, mB]).GetGameType 1 = Lookup.found m.mode_type)
        ∧ (quiescent [mA, mB]).Get 0 = Lookup.thrown
        ∧ (quiescent [mA, mB]).GetGameType 0 = Lookup.thrown) :=
  ⟨by decide, get_bounds (quiescent [mA, mB]) 1 (by decide)⟩

/-- Claim C10, counterexample: at index 0 on the empty stack, Get fails
(raises out_of_range) yet GetGameType does not return the dummy sentinel
tag (it raises too), refuting the stated biconditional that GetGameType
returns the dummy tag exactly when Get returns null or fails. -/
theorem getgametype_not_dummy_on_failure_ce :
    (quiescent []).Get 0 = Lookup.thrown ∧
      ¬((quiescent []).GetGameType 0 =
          Lookup.found MODE_MANAGER_DUMMY_MODE) := by decide

/-- Claim C10, amended: the two getter families agree as the map through
(null to dummy tag, mode to its tag): GetGameType() is that map of
GetTop(), and GetGameType(index) is that map of Get(index), in particular
throwing exactly when Get(index) throws. -/
theorem getters_agree (s : ModeEngine) (index : Nat) :
    s.GetGameTypeTop = tagOrDummy s.GetTop ∧
    s.GetGameType index = (s.Get index).map tagOrDummy := by
  constructor
  · unfold ModeEngine.GetGameTypeTop ModeEngine.GetTop
    cases s.game_stack <;> rfl
  · unfold ModeEngine.GetGameType ModeEngine.Get
    by_cases hlt : s.game_stack.length < index
    · rw [if_pos hlt, if_pos hlt]; rfl
    · rw [if_neg hlt, if_neg hlt]
      cases vecAt s.game_stack (s.game_stack.length - index) <;> rfl

/-- Claim C5: the pop loop with a nonzero pending counter always ends
with the counter reset to zero and the stack cut to drop count; it emits
exactly one excess-pops warning precisely when the counter exceeds the
stack depth, in which case it stops early with the stack drained empty;
the number of removals never exceeds the depth (no underflow, no removal
from an empty stack). -/
theorem excess_pops_drained (count : Nat) (stack : List GameMode)
    (_h : 0 < count) :
    (popPhase count stack).1 = 0
    ∧ (popPhase count stack).2.1 = stack.drop count
    ∧ ((popPhase count stack).2.2 = [Event.warnExcessPops] ↔
        stack.length < count)
    ∧ (stack.length < count → (popPhase count stack).2.1 = [])
    ∧ (popPhase count stack).2.1.length = stack.length - count := by
  refine ⟨popPhase_count _ _, popPhase_stack _ _, ?_, ?_, ?_⟩
  · rw [popPhase_events]
    by_cases hc : stack.length < count <;> simp [hc]
  · intro hlt
    rw [popPhase_stack]
    exact List.drop_eq_nil_of_le (by omega)
  · rw [popPhase_stack]
    simp

/-- Witness for excess_pops_drained: three pops against a depth-2 stack. -/
theorem excess_pops_drained_witness :
    0 < 3 ∧
      ((popPhase 3 [mA, mB]).1 = 0
        ∧ (popPhase 3 [mA, mB]).2.1 = [mA, mB].drop 3
        ∧ ((popPhase 3 [mA, mB]).2.2 = [Event.warnExcessPops] ↔
            [mA, mB].length < 3)
        ∧ ([mA, mB].length < 3 → (popPhase 3 [mA, mB]).2.1 = [])
        ∧ (popPhase 3 [mA, mB]).2.1.length = [mA, mB].length - 3) :=
  ⟨by decide, excess_pops_drained 3 [mA, mB] (by decide)⟩

theorem fadeStep_of_no_fade (s : ModeEngine) (v : VideoState)
    (h : s.fade_out = false) : fadeStep s v = s := by
  unfold fadeStep
  simp [h]

/-- Claim C1, counterexample: from the stack [X], the same-frame batch
Push(A); Pop(); Push(B) followed by one Update leaves A on top, not B:
the push-drain loop moves the pending entries in reverse enqueue order,
refuting that the most recently pushed entry becomes the new top. -/
theorem push_order_reversed_ce :
    (((((quiescent [mX]).Push mA false false).Pop false false).Push mB
          false false).Update vNone).state.map ModeEngine.GetTop =
        some (some mA)
    ∧ mA ≠ mB := by decide

/-- Claim C1, amended: the reconciliation moves the pending buffer onto
the live stack in reverse enqueue order: the new live stack is the
reversed pending batch on top of the popped live stack, so the entry
pushed EARLIEST becomes the new top (after Push(A); Pop(); Push(B);
Update() the top is A); the pop still removes the pre-frame top.
Recall the pending stack is stored most-recent-first, so its getLast is
the earliest enqueued entry and reversing it puts the earliest first. -/
theorem push_batch_reverse_order (s : ModeEngine) (v : VideoState)
    (h1 : s.fade_out_finished = true) (h2 : s.state_change = true)
    (hp : s.push_stack ≠ []) :
    ∃ s2, (s.Update v).state = some s2
      ∧ s2.game_stack = s.push_stack.reverse ++ s.game_stack.drop s.pop_count
      ∧ s2.game_stack.head? = s.push_stack.getLast? := by
  have hfs : (fadeStep s v).fade_out_finished = true := fadeStep_fof_of_fof s v h1
  cases hrev : s.push_stack.reverse with
  | nil =>
      exact absurd (by simpa using congrArg List.reverse hrev) hp
  | cons t r =>
      have he : s.push_stack.reverse ++ s.game_stack.drop s.pop_count =
          t :: (r ++ s.game_stack.drop s.pop_count) := by
        rw [hrev]; rfl
      obtain ⟨hst, _⟩ := update_commit_cons s v t
        (r ++ s.game_stack.drop s.pop_count) hfs h2 he
      refine ⟨_, hst, ?_, ?_⟩
      · simp
      · rw [← List.head?_reverse, hrev]
        rfl

/-- Witness for push_batch_reverse_order: pending batch of A then B over
the stack [X] with one pending pop. -/
theorem push_batch_reverse_order_witness :
    ({ quiescent [mX] with
       push_stack := [mB, mA], pop_count := 1, state_change := true,
       fade_out_finished := true } : ModeEngine).fade_out_finished = true
    ∧ ({ quiescent [mX] with
         push_stack := [mB, mA], pop_count := 1, state_change := true,
         fade_out_finished := true } : ModeEngine).state_change = true
    ∧ ({ quiescent [mX] with
         push_stack := [mB, mA], pop_count := 1, state_change := true,
         fade_out_finished := true } : ModeEngine).push_stack ≠ []
    ∧ ∃ s2, (({ quiescent [mX] with
                push_stack := [mB, mA], pop_count := 1, state_change := true,
                fade_out_finished := true } : ModeEngine).Update vNone).state =
          some s2
        ∧ s2.game_stack =
            ({ quiescent [mX] with
               push_stack := [mB, mA], pop_count := 1, state_change := true,
               fade_out_finished := true } : ModeEngine).push_stack.reverse ++
              ({ quiescent [mX] with
                 push_stack := [mB, mA], pop_count := 1, state_change := true,
                 fade_out_finished := true } : ModeEngine).game_stack.drop
                ({ quiescent [mX] with
                   push_stack := [mB, mA], pop_count := 1, state_change := true,
                   fade_out_finished := true } : ModeEngine).pop_count
        ∧ s2.game_stack.head? =
            ({ quiescent [mX] with
               push_stack := [mB, mA], pop_count := 1, state_change := true,
               fade_out_finished := true } : ModeEngine).push_stack.getLast? :=
  ⟨rfl, rfl, by decide,
    push_batch_reverse_order
      { quiescent [mX] with
        push_stack := [mB, mA], pop_count := 1, state_change := true,
        fade_out_finished := true } vNone rfl rfl (by decide)⟩

/-- Claim C2, code bug: when the commit leaves the live stack empty (here
stack [X] with one no-fade Pop), Update does request application exit,
but then falls through to back()->Reset() on the empty vector, which is
undefined behavior (state none in the model) instead of stopping; no
mode Reset is dispatched. The code contradicts its own comment that the
emptiness check is there to avoid a segmentation fault. -/
theorem empty_stack_commit_crash :
    ((((quiescent [mX]).Pop false false).Update vNone).state = none)
    ∧ Event.exitRequested ∈
        (((quiescent [mX]).Pop false false).Update vNone).events
    ∧ resetCount (((quiescent [mX]).Pop false false).Update vNone).events
        = 0 := by decide

/-- Claim C3, counterexample: PopAll on the quiescent stack [A, B]
followed immediately by Update removes nothing and requests no shutdown:
PopAll sets only the pop counter and never flags a state change, so the
reconciliation guard stays false and the live stack survives intact. -/
theorem popall_alone_no_reconciliation_ce :
    (((quiescent [mA, mB]).PopAll).Update vNone).state =
        some ((quiescent [mA, mB]).PopAll)
    ∧ ((quiescent [mA, mB]).PopAll).game_stack = [mA, mB]
    ∧ Event.exitRequested ∉
        (((quiescent [mA, mB]).PopAll).Update vNone).events := by decide

/-- Claim C3, amended: PopAll() sets the pop counter to the current live
stack depth but does not mark a state change and does not finish a fade,
so from a quiescent state PopAll() followed immediately by Update()
reconciles nothing: every live mode survives and no shutdown is
requested; the recorded pops are only applied at a reconciliation whose
state change was flagged by an accompanying Pop() or Push() call. -/
theorem popAll_defers_until_state_change (s : ModeEngine) (v : VideoState)
    (h1 : s.state_change = false) (h2 : s.fade_out_finished = false)
    (h3 : s.fade_out = false) :
    s.PopAll.pop_count = s.game_stack.length
    ∧ s.PopAll.state_change = false
    ∧ s.PopAll.fade_out_finished = false
    ∧ (s.PopAll.Update v).state = some s.PopAll
    ∧ ∀ e ∈ (s.PopAll.Update v).events, ∃ i, e = Event.updateCalled i := by
  have hfs : fadeStep s.PopAll v = s.PopAll :=
    fadeStep_of_no_fade _ _ (by simp [ModeEngine.PopAll, h3])
  have hg : ((fadeStep s.PopAll v).fade_out_finished &&
      s.PopAll.state_change) = false := by
    rw [hfs]
    simp [ModeEngine.PopAll, h1, h2]
  obtain ⟨hst, hev⟩ := update_no_commit s.PopAll v hg
  rw [hfs] at hst
  exact ⟨rfl, by simp [ModeEngine.PopAll, h1],
    by simp [ModeEngine.PopAll, h2], hst, hev⟩

/-- Witness for popAll_defers_until_state_change on the quiescent stack
[A, B]. -/
theorem popAll_defers_until_state_change_witness :
    (quiescent [mA, mB]).state_change = false
    ∧ (quiescent [mA, mB]).fade_out_finished = false
    ∧ (quiescent [mA, mB]).fade_out = false
    ∧ ((quiescent [mA, mB]).PopAll.pop_count =
          (quiescent [mA, mB]).game_stack.length
        ∧ (quiescent [mA, mB]).PopAll.state_change = false
        ∧ (quiescent [mA, mB]).PopAll.fade_out_finished = false
        ∧ ((quiescent [mA, mB]).PopAll.Update vNone).state =
            some (quiescent [mA, mB]).PopAll
        ∧ ∀ e ∈ ((quiescent [mA, mB]).PopAll.Update vNone).events,
            ∃ i, e = Event.updateCalled i) :=
  ⟨rfl, rfl, rfl,
    popAll_defers_until_state_change (quiescent [mA, mB]) vNone rfl rfl rfl⟩

/-- Claim C6: within one reconciliation all pending pops are applied
before any pending push: the committed stack is the reversed pending
batch on top of drop pop_count of the OLD live stack, so a same-frame
Pop issued after a Push consumes the pre-push live stack from its old
top (conjunct three) and never a newly pushed mode; and pops exceeding
the old depth drain the old stack to empty even when pushes are pending,
leaving only pushed modes (conjunct four). The result is the committed
state when nonempty and the undefined-behavior crash when empty. -/
theorem pops_before_pushes (s : ModeEngine) (v : VideoState)
    (h1 : s.fade_out_finished = true) (h2 : s.state_change = true) :
    (s.push_stack.reverse ++ s.game_stack.drop s.pop_count ≠ [] →
        ∃ s2, (s.Update v).state = some s2 ∧
          s2.game_stack = s.push_stack.reverse ++ s.game_stack.drop s.pop_count)
    ∧ (s.push_stack.reverse ++ s.game_stack.drop s.pop_count = [] →
        (s.Update v).state = none)
    ∧ (1 ≤ s.pop_count →
        s.game_stack.drop s.pop_count =
          s.game_stack.tail.drop (s.pop_count - 1))
    ∧ (s.game_stack.length ≤ s.pop_count →
        s.game_stack.drop s.pop_count = [] ∧
          ∀ m ∈ s.push_stack.reverse ++ s.game_stack.drop s.pop_count,
            m ∈ s.push_stack) := by
  have hfs : (fadeStep s v).fade_out_finished = true := fadeStep_fof_of_fof s v h1
  refine ⟨?_, ?_, ?_, ?_⟩
  · intro hne
    cases hrec : s.push_stack.reverse ++ s.game_stack.drop s.pop_count with
    | nil => exact absurd hrec hne
    | cons t r =>
        obtain ⟨hst, _⟩ := update_commit_cons s v t r hfs h2 hrec
        exact ⟨_, hst, by simp⟩
  · intro he
    exact (update_commit_empty s v hfs h2 he).1
  · intro hpc
    obtain ⟨k, hk⟩ : ∃ k, s.pop_count = k + 1 :=
      ⟨s.pop_count - 1, by omega⟩
    rw [hk]
    cases s.game_stack with
    | nil => simp
    | cons a t => simp
  · intro hle
    have hdrop : s.game_stack.drop s.pop_count = [] :=
      List.drop_eq_nil_of_le hle
    refine ⟨hdrop, ?_⟩
    intro m hm
    rw [hdrop] at hm
    simpa using hm

/-- Witness for pops_before_pushes: stack [X, Y] with two pending pops
and the pending push [B]. -/
theorem pops_before_pushes_witness :
    ({ quiescent [mX, mY] with
       push_stack := [mB], pop_count := 2, state_change := true,
       fade_out_finished := true } : ModeEngine).fade_out_finished = true
    ∧ ({ quiescent [mX, mY] with
         push_stack := [mB], pop_count := 2, state_change := true,
         fade_out_finished := true } : ModeEngine).state_change = true
    ∧ (({ quiescent [mX, mY] with
          push_stack := [mB], pop_count := 2, state_change := true,
          fade_out_finished := true } : ModeEngine).push_stack.reverse ++
          ({ quiescent [mX, mY] with
             push_stack := [mB], pop_count := 2, state_change := true,
             fade_out_finished := true } : ModeEngine).game_stack.drop
            ({ quiescent [mX, mY] with
               push_stack := [mB], pop_count := 2, state_change := true,
               fade_out_finished := true } : ModeEngine).pop_count ≠ [] →
        ∃ s2, (({ quiescent [mX, mY] with
                  push_stack := [mB], pop_count := 2, state_change := true,
                  fade_out_finished := true } : ModeEngine).Update vNone).state
              = some s2 ∧
          s2.game_stack =
            ({ quiescent [mX, mY] with
               push_stack := [mB], pop_count := 2, state_change := true,
               fade_out_finished := true } : ModeEngine).push_stack.reverse ++
              ({ quiescent [mX, mY] with
                 push_stack := [mB], pop_count := 2, state_change := true,
                 fade_out_finished := true } : ModeEngine).game_stack.drop
                ({ quiescent [mX, mY] with
                   push_stack := [mB], pop_count := 2, state_change := true,
                   fade_out_finished := true } : ModeEngine).pop_count)
      ∧ (({ quiescent [mX, mY] with
            push_stack := [mB], pop_count := 2, state_change := true,
            fade_out_finished := true } : ModeEngine).push_stack.reverse ++
            ({ quiescent [mX, mY] with
               push_stack := [mB], pop_count := 2, state_change := true,
               fade_out_finished := true } : ModeEngine).game_stack.drop
              ({ quiescent [mX, mY] with
                 push_stack := [mB], pop_count := 2, state_change := true,
                 fade_out_finished := true } : ModeEngine).pop_count = [] →
          (({ quiescent [mX, mY] with
              push_stack := [mB], pop_count := 2, state_change := true,
              fade_out_finished := true } : ModeEngine).Update vNone).state
            = none)
      ∧ (1 ≤ ({ quiescent [mX, mY] with
                push_stack := [mB], pop_count := 2, state_change := true,
                fade_out_finished := true } : ModeEngine).pop_count →
          ({ quiescent [mX, mY] with
             push_stack := [mB], pop_count := 2, state_change := true,
             fade_out_finished := true } : ModeEngine).game_stack.drop
              ({ quiescent [mX, mY] with
                 push_stack := [mB], pop_count := 2, state_change := true,
                 fade_out_finished := true } : ModeEngine).pop_count =
            ({ quiescent [mX, mY] with
               push_stack := [mB], pop_count := 2, state_change := true,
               fade_out_finished := true } : ModeEngine).game_stack.tail.drop
              (({ quiescent [mX, mY] with
                  push_stack := [mB], pop_count := 2, state_change := true,
                  fade_out_finished := true } : ModeEngine).pop_count - 1))
      ∧ (({ quiescent [mX, mY] with
            push_stack := [mB], pop_count := 2, state_change := true,
            fade_out_finished := true } : ModeEngine).game_stack.length ≤
            ({ quiescent [mX, mY] with
               push_stack := [mB], pop_count := 2, state_change := true,
               fade_out_finished := true } : ModeEngine).pop_count →
          ({ quiescent [mX, mY] with
             push_stack := [mB], pop_count := 2, state_change := true,
             fade_out_finished := true } : ModeEngine).game_stack.drop
              ({ quiescent [mX, mY] with
                 push_stack := [mB], pop_count := 2, state_change := true,
                 fade_out_finished := true } : ModeEngine).pop_count = [] ∧
            ∀ m ∈ ({ quiescent [mX, mY] with
                     push_stack := [mB], pop_count := 2, state_change := true,
                     fade_out_finished := true } : ModeEngine).push_stack.reverse
                ++ ({ quiescent [mX, mY] with
                      push_stack := [mB], pop_count := 2, state_change := true,
                      fade_out_finished := true } : ModeEngine).game_stack.drop
                  ({ quiescent [mX, mY] with
                     push_stack := [mB], pop_count := 2, state_change := true,
                     fade_out_finished := true } : ModeEngine).pop_count,
              m ∈ ({ quiescent [mX, mY] with
                     push_stack := [mB], pop_count := 2, state_change := true,
                     fade_out_finished := true } : ModeEngine).push_stack) :=
  ⟨rfl, rfl,
    pops_before_pushes
      { quiescent [mX, mY] with
        push_stack := [mB], pop_count := 2, state_change := true,
        fade_out_finished := true } vNone rfl rfl⟩

/-- Claim C9: the transition flags recorded for a same-frame batch of
Push and Pop requests are determined solely by the last request of the
batch: fade_out equals its fadeOut argument, fade_out_finished equals
the negation of that argument, fade_in equals its fadeIn argument, and
a state change is flagged; in particular, when the last request carries
fadeOut false the fade-out is marked already finished, so the next
Update commits the whole batch without waiting for any earlier fade. -/
theorem last_call_determines_transition (s : ModeEngine) (cs : List Call)
    (c : Call) (v : VideoState) :
    (applyCalls s (cs ++ [c])).fade_out = c.fadeOutFlag
    ∧ (applyCalls s (cs ++ [c])).fade_out_finished = !c.fadeOutFlag
    ∧ (applyCalls s (cs ++ [c])).fade_in = c.fadeInFlag
    ∧ (applyCalls s (cs ++ [c])).state_change = true
    ∧ (c.fadeOutFlag = false →
        ((fadeStep (applyCalls s (cs ++ [c])) v).fade_out_finished &&
          (applyCalls s (cs ++ [c])).state_change) = true) := by
  have happ : applyCalls s (cs ++ [c]) = applyCall (applyCalls s cs) c := by
    unfold applyCalls
    rw [List.foldl_append]
    rfl
  rw [happ]
  cases c with
  | pushCall m fo fi =>
      cases fo <;>
        simp [applyCall, ModeEngine.Push, Call.fadeOutFlag, Call.fadeInFlag,
          fadeStep]
  | popCall fo fi =>
      cases fo <;>
        simp [applyCall, ModeEngine.Pop, Call.fadeOutFlag, Call.fadeInFlag,
          fadeStep]

/-- Witness for last_call_determines_transition: a fading Pop followed by
a no-fade Pop over the quiescent stack [X]. -/
theorem last_call_determines_transition_witness :
    (applyCalls (quiescent [mX])
        ([Call.popCall true true] ++ [Call.popCall false false])).fade_out =
        (Call.popCall false false).fadeOutFlag
    ∧ (applyCalls (quiescent [mX])
          ([Call.popCall true true] ++
            [Call.popCall false false])).fade_out_finished =
        !(Call.popCall false false).fadeOutFlag
    ∧ (applyCalls (quiescent [mX])
          ([Call.popCall true true] ++ [Call.popCall false false])).fade_in =
        (Call.popCall false false).fadeInFlag
    ∧ (applyCalls (quiescent [mX])
          ([Call.popCall true true] ++
            [Call.popCall false false])).state_change = true
    ∧ ((Call.popCall false false).fadeOutFlag = false →
        ((fadeStep
            (applyCalls (quiescent [mX])
              ([Call.popCall true true] ++ [Call.popCall false false]))
            vNone).fade_out_finished &&
          (applyCalls (quiescent [mX])
            ([Call.popCall true true] ++
              [Call.popCall false false])).state_change) = true) :=
  last_call_determines_transition (quiescent [mX]) [Call.popCall true true]
    (Call.popCall false false) vNone

theorem Push_fields (s : ModeEngine) (m : GameMode) (fo fi : Bool) :
    (s.Push m fo fi).game_stack = s.game_stack ∧
    (s.Push m fo fi).push_stack = m :: s.push_stack ∧
    (s.Push m fo fi).pop_count = s.pop_count ∧
    (s.Push m fo fi).state_change = true ∧
    (s.Push m fo fi).fade_in = fi ∧
    (s.Push m fo fi).fade_out = fo ∧
    (s.Push m fo fi).fade_out_finished = !fo := by
  cases fo <;> exact ⟨rfl, rfl, rfl, rfl, rfl, rfl, rfl⟩

theorem Pop_fields (s : ModeEngine) (fo fi : Bool) :
    (s.Pop fo fi).game_stack = s.game_stack ∧
    (s.Pop fo fi).push_stack = s.push_stack ∧
    (s.Pop fo fi).pop_count = s.pop_count + 1 ∧
    (s.Pop fo fi).state_change = true ∧
    (s.Pop fo fi).fade_in = fi ∧
    (s.Pop fo fi).fade_out = fo ∧
    (s.Pop fo fi).fade_out_finished = !fo := by
  cases fo <;> exact ⟨rfl, rfl, rfl, rfl, rfl, rfl, rfl⟩

theorem update_commit_nonempty (s : ModeEngine) (v : VideoState)
    (h1 : (fadeStep s v).fade_out_finished = true) (h2 : s.state_change = true)
    (hne : s.push_stack.reverse ++ s.game_stack.drop s.pop_count ≠ []) :
    ∃ s2, (s.Update v).state = some s2
      ∧ s2.game_stack = s.push_stack.reverse ++ s.game_stack.drop s.pop_count
      ∧ s2.state_change = false := by
  cases hrec : s.push_stack.reverse ++ s.game_stack.drop s.pop_count with
  | nil => exact absurd hrec hne
  | cons t r =>
      obtain ⟨hst, _⟩ := update_commit_cons s v t r h1 h2 hrec
      exact ⟨_, hst, rfl, rfl⟩

/-- Claim C7: pending stack mutations are gated on fade-out completion.
After a Push or Pop with fadeOut true, every Update issued while the
video subsystem still reports the fade active leaves the engine state
(hence the live stack and its top) unchanged; a Push or Pop with fadeOut
false pre-sets the fade-out as finished, so the very next Update commits
the pending mutations regardless of the video report; and after a Pop
with fadeOut true, the first Update at which the video subsystem reports
the transitional fade complete commits the pop. -/
theorem fade_gating (s : ModeEngine) (m : GameMode) (f1 f2 f3 : Bool)
    (vs : List VideoState) (hvs : ∀ w ∈ vs, w.isFading = true)
    (vd : VideoState) (hd1 : vd.isLastFadeTransitional = true)
    (hd2 : vd.isFading = false) (v : VideoState) :
    runUpdates (s.Push m true f1) vs = some (s.Push m true f1)
    ∧ runUpdates (s.Pop true f2) vs = some (s.Pop true f2)
    ∧ (s.Push m false f3).fade_out_finished = true
    ∧ (∃ s2, ((s.Push m false f3).Update v).state = some s2
        ∧ s2.game_stack =
            (m :: s.push_stack).reverse ++ s.game_stack.drop s.pop_count
        ∧ s2.state_change = false)
    ∧ (s.Pop false f2).fade_out_finished = true
    ∧ (s.push_stack.reverse ++ s.game_stack.drop (s.pop_count + 1) ≠ [] →
        ∃ s2, ((s.Pop false f2).Update v).state = some s2
          ∧ s2.game_stack =
              s.push_stack.reverse ++ s.game_stack.drop (s.pop_count + 1))
    ∧ (s.push_stack.reverse ++ s.game_stack.drop (s.pop_count + 1) ≠ [] →
        ∃ s2, ((s.Pop true f2).Update vd).state = some s2
          ∧ s2.game_stack =
              s.push_stack.reverse ++ s.game_stack.drop (s.pop_count + 1)) := by
  obtain ⟨pugs, pups, pupc, pusc, pufi, pufo, pufof⟩ := Push_fields s m true f1
  obtain ⟨pg, pp, pc, psc, pfi, pfo, pfof⟩ := Pop_fields s true f2
  obtain ⟨qg, qp, qc, qsc, qfi, qfo, qfof⟩ := Pop_fields s false f2
  obtain ⟨rg, rp, rc, rsc, rfi, rfo, rfof⟩ := Push_fields s m false f3
  refine ⟨?_, ?_, ?_, ?_, ?_, ?_, ?_⟩
  · exact runUpdates_fading _ vs (by rw [pufof]; rfl) hvs
  · exact runUpdates_fading _ vs (by rw [pfof]; rfl) hvs
  · rw [rfof]; rfl
  · have hfs : (fadeStep (s.Push m false f3) v).fade_out_finished = true :=
      fadeStep_fof_of_fof _ _ (by rw [rfof]; rfl)
    have hne : (s.Push m false f3).push_stack.reverse ++
        (s.Push m false f3).game_stack.drop (s.Push m false f3).pop_count
          ≠ [] := by
      rw [rp, rg, rc]
      simp
    obtain ⟨s2, hst, hgs, hsc⟩ := update_commit_nonempty _ v hfs rsc hne
    rw [rp, rg, rc] at hgs
    exact ⟨s2, hst, hgs, hsc⟩
  · rw [qfof]; rfl
  · intro hne
    have hfs : (fadeStep (s.Pop false f2) v).fade_out_finished = true :=
      fadeStep_fof_of_fof _ _ (by rw [qfof]; rfl)
    have hne2 : (s.Pop false f2).push_stack.reverse ++
        (s.Pop false f2).game_stack.drop (s.Pop false f2).pop_count ≠ [] := by
      rw [qp, qg, qc]
      exact hne
    obtain ⟨s2, hst, hgs, _⟩ := update_commit_nonempty _ v hfs qsc hne2
    rw [qp, qg, qc] at hgs
    exact ⟨s2, hst, hgs⟩
  · intro hne
    have hfs : (fadeStep (s.Pop true f2) vd).fade_out_finished = true := by
      unfold fadeStep
      rw [pfo, hd1, hd2]
      rfl
    have hne2 : (s.Pop true f2).push_stack.reverse ++
        (s.Pop true f2).game_stack.drop (s.Pop true f2).pop_count ≠ [] := by
      rw [pp, pg, pc]
      exact hne
    obtain ⟨s2, hst, hgs, _⟩ := update_commit_nonempty _ vd hfs psc hne2
    rw [pp, pg, pc] at hgs
    exact ⟨s2, hst, hgs⟩

/-- Witness for fade_gating: stack [A, B] with B on top, pushing X. -/
theorem fade_gating_witness :
    (∀ w ∈ [vFading, vFading], w.isFading = true)
    ∧ vDone.isLastFadeTransitional = true
    ∧ vDone.isFading = false
    ∧ (runUpdates ((quiescent [mB, mA]).Push mX true false)
          [vFading, vFading] = some ((quiescent [mB, mA]).Push mX true false)
      ∧ runUpdates ((quiescent [mB, mA]).Pop true true) [vFading, vFading] =
          some ((quiescent [mB, mA]).Pop true true)
      ∧ ((quiescent [mB, mA]).Push mX false false).fade_out_finished = true
      ∧ (∃ s2, (((quiescent [mB, mA]).Push mX false false).Update
              vNone).state = some s2
          ∧ s2.game_stack = (mX :: (quiescent [mB, mA]).push_stack).reverse ++
              (quiescent [mB, mA]).game_stack.drop
                (quiescent [mB, mA]).pop_count
          ∧ s2.state_change = false)
      ∧ ((quiescent [mB, mA]).Pop false true).fade_out_finished = true
      ∧ ((quiescent [mB, mA]).push_stack.reverse ++
            (quiescent [mB, mA]).game_stack.drop
              ((quiescent [mB, mA]).pop_count + 1) ≠ [] →
          ∃ s2, (((quiescent [mB, mA]).Pop false true).Update vNone).state =
              some s2
            ∧ s2.game_stack = (quiescent [mB, mA]).push_stack.reverse ++
                (quiescent [mB, mA]).game_stack.drop
                  ((quiescent [mB, mA]).pop_count + 1))
      ∧ ((quiescent [mB, mA]).push_stack.reverse ++
            (quiescent [mB, mA]).game_stack.drop
              ((quiescent [mB, mA]).pop_count + 1) ≠ [] →
          ∃ s2, (((quiescent [mB, mA]).Pop true true).Update vDone).state =
              some s2
            ∧ s2.game_stack = (quiescent [mB, mA]).push_stack.reverse ++
                (quiescent [mB, mA]).game_stack.drop
                  ((quiescent [mB, mA]).pop_count + 1))) :=
  ⟨by decide, rfl, rfl,
    fade_gating (quiescent [mB, mA]) mX false true false [vFading, vFading]
      (by decide) vDone rfl rfl vNone⟩

theorem resetCount_append (l1 l2 : List Event) :
    resetCount (l1 ++ l2) = resetCount l1 + resetCount l2 := by
  simp [resetCount, List.filter_append]

theorem resetCount_popPhase (n : Nat) (l : List GameMode) :
    resetCount (popPhase n l).2.2 = 0 := by
  rw [popPhase_events]
  by_cases hc : l.length < n <;> simp [hc] <;> rfl

theorem resetCount_eq_zero_of (l : List Event)
    (h : ∀ e ∈ l, ∃ i, e = Event.updateCalled i) : resetCount l = 0 := by
  induction l with
  | nil => rfl
  | cons e t ih =>
      obtain ⟨i, rfl⟩ := h e (by simp)
      have hstep : resetCount (Event.updateCalled i :: t) = resetCount t := by
        simp [resetCount, List.filter_cons, isResetEvent]
      rw [hstep]
      exact ih (fun e he => h e (by simp [he]))

/-- Claim C8: Reset discipline of Update. On a frame whose reconciliation
guard is down no Reset is dispatched at all; on a frame that commits,
either the commit crashes on the empty stack (no Reset completes), or
exactly one Reset is dispatched, aimed at the new top of the live stack,
and - given that all mode objects are distinct and that the flagged state
change is backed by a pending pop or push - that new top is never the
mode that was already on top before the commit. -/
theorem reset_exactly_once (s : ModeEngine) (v : VideoState)
    (hnodup : ((s.game_stack ++ s.push_stack).map GameMode.id).Nodup)
    (hmut : 1 ≤ s.pop_count ∨ s.push_stack ≠ []) :
    (((fadeStep s v).fade_out_finished && s.state_change) = false →
        resetCount (s.Update v).events = 0)
    ∧ ((s.Update v).state = none → resetCount (s.Update v).events = 0)
    ∧ (((fadeStep s v).fade_out_finished && s.state_change) = true →
        (s.Update v).state = none ∨
        ∃ s2 top rest, (s.Update v).state = some s2
          ∧ s2.game_stack = top :: rest
          ∧ resetCount (s.Update v).events = 1
          ∧ Event.resetCalled top.id ∈ (s.Update v).events
          ∧ s.game_stack.head?.map GameMode.id ≠ some top.id) := by
  refine ⟨?_, ?_, ?_⟩
  · intro hg
    exact resetCount_eq_zero_of _ (update_no_commit s v hg).2
  · intro hnone
    cases hb : ((fadeStep s v).fade_out_finished && s.state_change) with
    | false => exact resetCount_eq_zero_of _ (update_no_commit s v hb).2
    | true =>
        rw [Bool.and_eq_true] at hb
        cases hrec : s.push_stack.reverse ++ s.game_stack.drop s.pop_count with
        | nil =>
            obtain ⟨_, hev⟩ := update_commit_empty s v hb.1 hb.2 hrec
            rw [hev, resetCount_append, resetCount_popPhase]
            rfl
        | cons t r =>
            obtain ⟨hst, _⟩ := update_commit_cons s v t r hb.1 hb.2 hrec
            rw [hst] at hnone
            exact absurd hnone (by simp)
  · intro hg
    rw [Bool.and_eq_true] at hg
    cases hrec : s.push_stack.reverse ++ s.game_stack.drop s.pop_count with
    | nil =>
        exact Or.inl (update_commit_empty s v hg.1 hg.2 hrec).1
    | cons t r =>
        obtain ⟨hst, hev⟩ := update_commit_cons s v t r hg.1 hg.2 hrec
        refine Or.inr ⟨_, t, r, hst, rfl, ?_, ?_, ?_⟩
        · rw [hev, resetCount_append, resetCount_popPhase]
          rfl
        · rw [hev]
          simp
        · cases hps : s.push_stack with
          | cons p ps =>
              have hq0 : s.push_stack.reverse ≠ [] := by simp [hps]
              cases hq : s.push_stack.reverse with
              | nil => exact absurd hq hq0
              | cons q qs =>
                  rw [hq] at hrec
                  have hqt : q = t := by
                    have h3 := hrec
                    simp only [List.cons_append, List.cons.injEq] at h3
                    exact h3.1
                  have htmem : t ∈ s.push_stack := by
                    rw [← List.mem_reverse, hq, ← hqt]
                    simp
                  have hdisj : (s.game_stack.map GameMode.id).Disjoint
                      (s.push_stack.map GameMode.id) := by
                    rw [List.map_append, List.nodup_append] at hnodup
                    exact hnodup.2.2
                  cases hgs : s.game_stack with
                  | nil => simp
                  | cons g gs =>
                      have hgmem : GameMode.id g ∈ s.game_stack.map GameMode.id := by
                        rw [hgs]
                        simp
                      simp only [List.head?_cons, Option.map_some', ne_eq,
                        Option.some.injEq]
                      intro hcontra
                      exact hdisj hgmem
                        (by rw [hcontra]; exact List.mem_map_of_mem _ htmem)
          | nil =>
              have hpc : 1 ≤ s.pop_count := by
                cases hmut with
                | inl h3 => exact h3
                | inr h3 => exact absurd hps h3
              rw [hps] at hrec
              simp only [List.reverse_nil, List.nil_append] at hrec
              cases hgs : s.game_stack with
              | nil =>
                  rw [hgs] at hrec
                  simp at hrec
              | cons g gs =>
                  have htmem : t ∈ gs := by
                    have h1mem : t ∈ s.game_stack.drop s.pop_count := by
                      rw [hrec]
                      simp
                    rw [hgs] at h1mem
                    obtain ⟨k, hk⟩ : ∃ k, s.pop_count = k + 1 :=
                      ⟨s.pop_count - 1, by omega⟩
                    rw [hk] at h1mem
                    exact List.drop_subset _ _ h1mem
                  have hnd : (s.game_stack.map GameMode.id).Nodup := by
                    rw [List.map_append, List.nodup_append] at hnodup
                    exact hnodup.1
                  rw [hgs] at hnd
                  simp only [List.map_cons, List.nodup_cons] at hnd
                  simp only [List.head?_cons, Option.map_some', ne_eq,
                    Option.some.injEq]
                  intro hcontra
                  exact hnd.1
                    (by rw [hcontra]; exact List.mem_map_of_mem _ htmem)

/-- Witness for reset_exactly_once: the pending push [A] over the live
stack [X], with the commit guard up. -/
theorem reset_exactly_once_witness :
    ((({ quiescent [mX] with
         push_stack := [mA], state_change := true,
         fade_out_finished := true } : ModeEngine).game_stack ++
        ({ quiescent [mX] with
           push_stack := [mA], state_change := true,
           fade_out_finished := true } : ModeEngine).push_stack).map
          GameMode.id).Nodup
    ∧ (1 ≤ ({ quiescent [mX] with
              push_stack := [mA], state_change := true,
              fade_out_finished := true } : ModeEngine).pop_count ∨
        ({ quiescent [mX] with
           push_stack := [mA], state_change := true,
           fade_out_finished := true } : ModeEngine).push_stack ≠ [])
    ∧ ((((fadeStep { quiescent [mX] with
              push_stack := [mA], state_change := true,
              fade_out_finished := true } vNone).fade_out_finished &&
            ({ quiescent [mX] with
               push_stack := [mA], state_change := true,
               fade_out_finished := true } : ModeEngine).state_change) = false →
          resetCount (({ quiescent [mX] with
              push_stack := [mA], state_change := true,
              fade_out_finished := true } : ModeEngine).Update vNone).events = 0)
      ∧ ((({ quiescent [mX] with
             push_stack := [mA], state_change := true,
             fade_out_finished := true } : ModeEngine).Update vNone).state =
            none →
          resetCount (({ quiescent [mX] with
              push_stack := [mA], state_change := true,
              fade_out_finished := true } : ModeEngine).Update vNone).events = 0)
      ∧ (((fadeStep { quiescent [mX] with
              push_stack := [mA], state_change := true,
              fade_out_finished := true } vNone).fade_out_finished &&
            ({ quiescent [mX] with
               push_stack := [mA], state_change := true,
               fade_out_finished := true } : ModeEngine).state_change) = true →
          (({ quiescent [mX] with
              push_stack := [mA], state_change := true,
              fade_out_finished := true } : ModeEngine).Update vNone).state =
              none ∨
          ∃ s2 top rest,
            (({ quiescent [mX] with
                push_stack := [mA], state_change := true,
                fade_out_finished := true } : ModeEngine).Update vNone).state =
                some s2
              ∧ s2.game_stack = top :: rest
              ∧ resetCount (({ quiescent [mX] with
                    push_stack := [mA], state_change := true,
                    fade_out_finished := true } : ModeEngine).Update
                    vNone).events = 1
              ∧ Event.resetCalled top.id ∈
                  (({ quiescent [mX] with
                      push_stack := [mA], state_change := true,
                      fade_out_finished := true } : ModeEngine).Update
                      vNone).events
              ∧ ({ quiescent [mX] with
                   push_stack := [mA], state_change := true,
                   fade_out_finished := true } : ModeEngine).game_stack.head?.map
                    GameMode.id ≠ some top.id)) :=
  ⟨by decide, by decide,
    reset_exactly_once
      { quiescent [mX] with
        push_stack := [mA], state_change := true, fade_out_finished := true }
      vNone (by decide) (by decide)⟩
